import Mathlib

set_option maxRecDepth 10000

/-!
Verification development for the Smart-Study-Buddy backend.

Texts (Python `str` values) are modelled as `List Char`; machine-level
details (HTTP framing, SQLAlchemy sessions, JSON serialisation) are out of
scope.  Database tables are modelled as lists of row structures, endpoint
handlers as pure functions from an explicit database value (plus the
outcome of the external OpenAI call, which is an input of the model) to
the new database value and the returned response dictionary.
-/

/-- Python strings are modelled as lists of characters. -/
abbrev Str := List Char

/-- Characters removed by Python `str.strip()`. -/
def isPySpace (c : Char) : Bool :=
  c = ' ' || c = '\t' || c = '\n' || c = '\x0d' || c = '\x0b' || c = '\x0c'

/-- Python `str.strip()`: drop leading and trailing whitespace. -/
def pyStrip (s : Str) : Str :=
  ((s.dropWhile isPySpace).reverse.dropWhile isPySpace).reverse

/-- Python `str.lower()` (ASCII case folding, which is what the stored
emails and the literal keys `short`/`medium`/`long` use). -/
def pyLower (s : Str) : Str := s.map Char.toLower

/-- `str.lower()` on a Lean `String`. -/
def pyLowerS (s : String) : String := String.mk (pyLower s.data)

/-- The `status` field of the response dictionaries built by the
`_fail`/`_success` helpers. -/
inductive Status where
  | SUCCESS : Status
  | FAIL : Status
deriving DecidableEq, Repr

/-- The response dictionary `{"status", "statusCode", "message", "data"}`
shared by all three API modules. -/
structure Resp where
  status : Status
  statusCode : Nat
  message : String
  data : Str
deriving DecidableEq, Repr

/-- `_fail(msg)`: `{"status": "FAIL", "statusCode": 200, "message": msg, "data": ""}`. -/
def pyFail (msg : String) : Resp :=
  ⟨Status.FAIL, 200, msg, []⟩

/-- `_success(data_str, message)`:
`{"status": "SUCCESS", "statusCode": 200, "message": message, "data": data_str}`. -/
def pySuccess (dataStr : Str) (message : String) : Resp :=
  ⟨Status.SUCCESS, 200, message, dataStr⟩

/-- A row of the `courses` table (`models/db_model.py`). -/
structure CourseRow where
  course_id : Nat
  course_name : String
  course_content : Str
deriving DecidableEq, Repr

/-- A row of the `summary` table (`models/db_model.py`). -/
structure SummaryRow where
  course_id : Nat
  summary_length : String
  summary_content : Str
deriving DecidableEq, Repr

/-- A row of the `flashcards` table (`models/db_model.py`); the
auto-increment surrogate key is irrelevant to the verified properties and
is omitted. -/
structure FlashcardRow where
  course_id : Nat
  card_index : Nat
  front_text : Str
  back_text : Str
deriving DecidableEq, Repr

/-- A row of the `User` table (`models/db_model.py`); only the columns read
by the login endpoint are modelled. -/
structure UserRow where
  user_id : Nat
  user_email : Str
  user_password : Str
deriving DecidableEq, Repr

/-- The database state visible to the verified endpoints. -/
structure DB where
  courses : List CourseRow
  summaries : List SummaryRow
  flashcards : List FlashcardRow
deriving DecidableEq, Repr

/-! ## The summary pipeline (`apis/gpt_api.py`, `generate_course_summary`) -/

/-- `summary_map = {"short": 300, "medium": 700, "long": 1200}` together
with the `summary_map.get(...)` / `if not max_chars` guard. -/
def summaryMap (s : String) : Option Nat :=
  if s = "short" then some 300
  else if s = "medium" then some 700
  else if s = "long" then some 1200
  else none

/-- The `system_prompt` f-string of `generate_course_summary` (line 245). -/
def systemPrompt (slen : String) : Str :=
  ("You are a helpful teaching assistant. Summarize the following course material in ").data
    ++ slen.data
    ++ (" form. Explain concepts in very simple, clear language that any student can understand. Avoid jargon. Use bullet points and short sentences.").data

/-- The portion of the (stripped) course content that is handed to the
external call: the slice `content[:4000]` at line 251 of `gpt_api.py`. -/
def chunkedContent (content : Str) : Str := content.take 4000

/-- The sequence of content pieces passed to external summarization calls.
`generate_course_summary` performs no chunk loop: the only chunk it ever
forms is the single slice `content[:4000]`. -/
def chunksUsed (content : Str) : List Str := [chunkedContent content]

/-- The `user_prompt` f-string (line 251). -/
def userPrompt (content : Str) : Str :=
  ("Summarize this course content:\n\n").data ++ chunkedContent content

/-- The `input` argument of `client.responses.create` (line 256). -/
def aiInput (slen : String) (content : Str) : Str :=
  systemPrompt slen ++ ("\n\n").data ++ userPrompt content

/-- The object returned by `client.responses.create`: its `output_text`
attribute (absent or any string) and its `str(resp)` rendering. -/
structure AiResp where
  output_text : Option Str
  str_repr : Str
deriving DecidableEq, Repr

/-- Line 259: `summary_text = getattr(resp, "output_text", None) or str(resp)`
(Python `or` falls through on `None` and on the empty string). -/
def outputTextOf (r : AiResp) : Str :=
  match r.output_text with
  | some t => if t = [] then r.str_repr else t
  | none => r.str_repr

/-- The external text-generation call: from the `input` string and the
`max_output_tokens` argument to either a raised exception (modelled by the
exception's type name, as consumed by `type(e).__name__`) or a response
object.  The call is an input of the model, so every claim quantifies over
its behaviour. -/
abbrev AiCall := Str → Nat → Except String AiResp

/-- `generate_course_summary(course_id, body)` (`gpt_api.py` lines 218-273),
for a request body containing `summary_length = slen`.  Returns the new
database state, the response dictionary, and the trace of external calls
made (each recorded as the `input` string and `max_output_tokens` value),
in order. -/
def generateCourseSummary (db : DB) (course_id : Nat) (slen : String)
    (ai : AiCall) : DB × Resp × List (Str × Nat) :=
  match summaryMap (pyLowerS slen) with
  | none => (db, pyFail ("Invalid summary_length. Use one of: short, medium, long."), [])
  | some max_chars =>
    match db.courses.find? (fun c => c.course_id = course_id) with
    | none => (db, pyFail ("Course id=" ++ toString course_id ++ " not found"), [])
    | some c =>
      let content := pyStrip c.course_content
      if content = [] then
        (db, pyFail ("Course id=" ++ toString course_id ++ " has no content"), [])
      else
        match ai (aiInput slen content) max_chars with
        | Except.error e =>
          (db, pyFail ("AI summarization failed: " ++ e), [(aiInput slen content, max_chars)])
        | Except.ok r =>
          let summary_text := outputTextOf r
          let kept := db.summaries.filter
            (fun s => ! (s.course_id == course_id && s.summary_length == slen))
          let db' : DB := { db with summaries := kept ++ [⟨course_id, slen, summary_text⟩] }
          (db', pySuccess summary_text
            ("Summary (" ++ slen ++ ") generated and stored for course_id=" ++ toString course_id ++ "."),
            [(aiInput slen content, max_chars)])

/-- A sample database: course 1 with content `"abc"`. -/
def db0 : DB :=
  ⟨[⟨1, "Algebra", ("abc").data⟩], [], []⟩

/-- An external call answering with a 301-character output text. -/
def ai301 : AiCall := fun _ _ => Except.ok ⟨some (List.replicate 301 'x'), []⟩

/-- An external call that always raises `TimeoutError`. -/
def aiTimeout : AiCall := fun _ _ => Except.error "TimeoutError"

/-- A course content of 4001 identical characters, exceeding the 4000-character
slice bound of `generate_course_summary`. -/
def content4001 : Str := List.replicate 4001 'a'

/-- Shared inversion lemma: the success path of `generate_course_summary`.
If the length key is valid, the course is found with nonempty stripped
content, and the external call answers `r`, the function stores and returns
`outputTextOf r` and performs exactly that one call. -/
theorem generateCourseSummary_ok (db : DB) (cid : Nat) (slen : String) (maxc : Nat)
    (c : CourseRow) (ai : AiCall) (r : AiResp)
    (hm : summaryMap (pyLowerS slen) = some maxc)
    (hc : db.courses.find? (fun x => x.course_id = cid) = some c)
    (hne : pyStrip c.course_content ≠ [])
    (hai : ai (aiInput slen (pyStrip c.course_content)) maxc = Except.ok r) :
    generateCourseSummary db cid slen ai =
      ({ db with summaries :=
          db.summaries.filter (fun s => ! (s.course_id == cid && s.summary_length == slen))
          ++ [⟨cid, slen, outputTextOf r⟩] },
       pySuccess (outputTextOf r)
         ("Summary (" ++ slen ++ ") generated and stored for course_id=" ++ toString cid ++ "."),
       [(aiInput slen (pyStrip c.course_content), maxc)]) := by
  unfold generateCourseSummary
  rw [hm, hc]
  dsimp only
  rw [if_neg hne, hai]

/-- Shared inversion lemma: the external-failure path of
`generate_course_summary`.  The exception is caught; the caller receives a
`FAIL` response embedding the exception type name and the database is
untouched. -/
theorem generateCourseSummary_err (db : DB) (cid : Nat) (slen : String) (maxc : Nat)
    (c : CourseRow) (ai : AiCall) (e : String)
    (hm : summaryMap (pyLowerS slen) = some maxc)
    (hc : db.courses.find? (fun x => x.course_id = cid) = some c)
    (hne : pyStrip c.course_content ≠ [])
    (hai : ai (aiInput slen (pyStrip c.course_content)) maxc = Except.error e) :
    generateCourseSummary db cid slen ai =
      (db, pyFail ("AI summarization failed: " ++ e),
       [(aiInput slen (pyStrip c.course_content), maxc)]) := by
  unfold generateCourseSummary
  rw [hm, hc]
  dsimp only
  rw [if_neg hne, hai]

/-- C1: the claim says the stored and returned outline always has length at
most the budget (300 for `short`).  False: with course content `"abc"` and
an external response of 301 characters, the operation succeeds, returns a
301-character `data` string and stores a 301-character summary row — the
code applies no trim; `max_chars` is only passed as `max_output_tokens`. -/
theorem summary_length_budget_cex :
    (generateCourseSummary db0 1 "short" ai301).2.1.status = Status.SUCCESS ∧
    (generateCourseSummary db0 1 "short" ai301).1.summaries
      = [⟨1, "short", List.replicate 301 'x'⟩] ∧
    300 < (generateCourseSummary db0 1 "short" ai301).2.1.data.length := by
  refine ⟨by decide, by decide, by decide⟩

/-- C1 (amended): on a successful run, the summary-generation operation
returns and stores the external response text verbatim: the stored and
returned string is exactly `outputTextOf r`, so its length equals the
response length and is not bounded by the character budget; the budget is
passed to the external call only as `max_output_tokens`. -/
theorem summary_stored_verbatim (db : DB) (cid : Nat) (slen : String) (maxc : Nat)
    (c : CourseRow) (ai : AiCall) (r : AiResp)
    (hm : summaryMap (pyLowerS slen) = some maxc)
    (hc : db.courses.find? (fun x => x.course_id = cid) = some c)
    (hne : pyStrip c.course_content ≠ [])
    (hai : ai (aiInput slen (pyStrip c.course_content)) maxc = Except.ok r) :
    (generateCourseSummary db cid slen ai).2.1.data = outputTextOf r ∧
    (generateCourseSummary db cid slen ai).1.summaries
      = db.summaries.filter (fun s => ! (s.course_id == cid && s.summary_length == slen))
        ++ [⟨cid, slen, outputTextOf r⟩] ∧
    (generateCourseSummary db cid slen ai).2.2 = [(aiInput slen (pyStrip c.course_content), maxc)] := by
  rw [generateCourseSummary_ok db cid slen maxc c ai r hm hc hne hai]
  exact ⟨rfl, rfl, rfl⟩

/-- Witness for `summary_stored_verbatim` at a concrete database and
response. -/
theorem summary_stored_verbatim_witness :
    (generateCourseSummary db0 1 "short" ai301).2.1.data
      = outputTextOf ⟨some (List.replicate 301 'x'), []⟩ ∧
    (generateCourseSummary db0 1 "short" ai301).1.summaries
      = db0.summaries.filter (fun s => ! (s.course_id == 1 && s.summary_length == "short"))
        ++ [⟨1, "short", outputTextOf ⟨some (List.replicate 301 'x'), []⟩⟩] ∧
    (generateCourseSummary db0 1 "short" ai301).2.2
      = [(aiInput "short" (pyStrip (("abc").data)), 300)] :=
  summary_stored_verbatim db0 1 "short" 300 ⟨1, "Algebra", ("abc").data⟩ ai301
    ⟨some (List.replicate 301 'x'), []⟩ (by decide) (by decide) (by decide) rfl

/-- The length of the 4001-character sample content. -/
theorem content4001_length : content4001.length = 4001 := by
  unfold content4001
  exact List.length_replicate ..

/-- C2: the claim says the chunking step reconstructs any over-long text
with no loss.  False: `generate_course_summary` has no chunk loop; the only
piece of content ever passed to the external call is the slice
`content[:4000]`, so for a 4001-character content the concatenation of the
chunks used is not the original text — the 4001st character is discarded. -/
theorem chunking_no_loss_cex :
    4000 < content4001.length ∧
    (chunksUsed content4001).flatten ≠ content4001 := by
  constructor
  · rw [content4001_length]
    decide
  · intro h
    have hl := congrArg List.length h
    simp only [chunksUsed, chunkedContent, List.flatten_cons, List.flatten_nil,
      List.append_nil, List.length_take, content4001_length] at hl
    omega

/-- C2 (amended): for any content longer than 4000 characters, the pipeline
performs no chunking: the single external call receives exactly the first
4000 characters of the content (embedded in `aiInput`), and the
concatenation of the content pieces used is `content.take 4000`, a proper
prefix — everything beyond 4000 characters is discarded. -/
theorem chunking_discards_tail (content : Str) (slen : String)
    (h : 4000 < content.length) :
    (chunksUsed content).flatten = content.take 4000 ∧
    (chunksUsed content).flatten ≠ content ∧
    aiInput slen content
      = systemPrompt slen ++ ("\n\n").data
        ++ ("Summarize this course content:\n\n").data ++ content.take 4000 := by
  refine ⟨by simp [chunksUsed, chunkedContent], ?_, by simp [aiInput, userPrompt, chunkedContent]⟩
  intro hq
  have hl := congrArg List.length hq
  simp [chunksUsed, chunkedContent, List.length_take] at hl
  omega

/-- Witness for `chunking_discards_tail` at the 4001-character content. -/
theorem chunking_discards_tail_witness :
    (chunksUsed content4001).flatten = content4001.take 4000 ∧
    (chunksUsed content4001).flatten ≠ content4001 ∧
    aiInput "short" content4001
      = systemPrompt "short" ++ ("\n\n").data
        ++ ("Summarize this course content:\n\n").data ++ content4001.take 4000 :=
  chunking_discards_tail content4001 "short" (by rw [content4001_length]; decide)

/-- C3: the claim says an external-call error is propagated as-is to the
caller.  False: the code catches every exception and returns a normal
response dictionary `_fail("AI summarization failed: " + type(e).__name__)`
— a translated `FAIL` payload with `statusCode` 200, not the underlying
error kind. -/
theorem error_propagation_cex :
    (generateCourseSummary db0 1 "short" aiTimeout).2.1
      = pyFail ("AI summarization failed: TimeoutError") ∧
    (generateCourseSummary db0 1 "short" aiTimeout).2.1.message ≠ "TimeoutError" := by
  refine ⟨by decide, by decide⟩

/-- C3 (amended): if the external call raises exception kind `e`, the
pipeline makes exactly that one call (no retry) and returns — rather than
raises — a `FAIL` response whose message is `"AI summarization failed: "`
followed by the exception type name; the database is left unchanged. -/
theorem error_translated_to_fail_response (db : DB) (cid : Nat) (slen : String)
    (maxc : Nat) (c : CourseRow) (ai : AiCall) (e : String)
    (hm : summaryMap (pyLowerS slen) = some maxc)
    (hc : db.courses.find? (fun x => x.course_id = cid) = some c)
    (hne : pyStrip c.course_content ≠ [])
    (hai : ai (aiInput slen (pyStrip c.course_content)) maxc = Except.error e) :
    generateCourseSummary db cid slen ai
      = (db, pyFail ("AI summarization failed: " ++ e),
         [(aiInput slen (pyStrip c.course_content), maxc)]) :=
  generateCourseSummary_err db cid slen maxc c ai e hm hc hne hai

/-- Witness for `error_translated_to_fail_response` at a concrete database. -/
theorem error_translated_to_fail_response_witness :
    generateCourseSummary db0 1 "short" aiTimeout
      = (db0, pyFail ("AI summarization failed: " ++ "TimeoutError"),
         [(aiInput "short" (pyStrip (("abc").data)), 300)]) :=
  error_translated_to_fail_response db0 1 "short" 300 ⟨1, "Algebra", ("abc").data⟩
    aiTimeout "TimeoutError" (by decide) (by decide) (by decide) rfl

/-- C4: for stripped content of at most 4000 characters the single content
piece used is the whole text, exactly one external call is made (no merge
call), and the returned `data` is the external response text verbatim. -/
theorem single_chunk_is_whole_text (db : DB) (cid : Nat) (slen : String) (maxc : Nat)
    (c : CourseRow) (ai : AiCall) (r : AiResp)
    (hm : summaryMap (pyLowerS slen) = some maxc)
    (hc : db.courses.find? (fun x => x.course_id = cid) = some c)
    (hne : pyStrip c.course_content ≠ [])
    (hlen : (pyStrip c.course_content).length ≤ 4000)
    (hai : ai (aiInput slen (pyStrip c.course_content)) maxc = Except.ok r) :
    chunksUsed (pyStrip c.course_content) = [pyStrip c.course_content] ∧
    (generateCourseSummary db cid slen ai).2.2.length = 1 ∧
    (generateCourseSummary db cid slen ai).2.1.data = outputTextOf r := by
  rw [generateCourseSummary_ok db cid slen maxc c ai r hm hc hne hai]
  refine ⟨?_, rfl, rfl⟩
  simp [chunksUsed, chunkedContent, List.take_of_length_le hlen]

/-- Witness for `single_chunk_is_whole_text` at a concrete database. -/
theorem single_chunk_is_whole_text_witness :
    chunksUsed (pyStrip (("abc").data)) = [pyStrip (("abc").data)] ∧
    (generateCourseSummary db0 1 "short" ai301).2.2.length = 1 ∧
    (generateCourseSummary db0 1 "short" ai301).2.1.data
      = outputTextOf ⟨some (List.replicate 301 'x'), []⟩ :=
  single_chunk_is_whole_text db0 1 "short" 300 ⟨1, "Algebra", ("abc").data⟩ ai301
    ⟨some (List.replicate 301 'x'), []⟩ (by decide) (by decide) (by decide) (by decide)
    rfl

/-- C5: when the response text already fits within the budget, the step
between the external response and the stored/returned string is the
identity — the string is returned and stored unchanged.  (In fact the code
applies no transformation for any length; the hypothesis `hfit` is the
claim's premise.) -/
theorem trim_identity_when_fits (db : DB) (cid : Nat) (slen : String) (maxc : Nat)
    (c : CourseRow) (ai : AiCall) (r : AiResp)
    (hm : summaryMap (pyLowerS slen) = some maxc)
    (hc : db.courses.find? (fun x => x.course_id = cid) = some c)
    (hne : pyStrip c.course_content ≠ [])
    (hai : ai (aiInput slen (pyStrip c.course_content)) maxc = Except.ok r)
    (_hfit : (outputTextOf r).length ≤ maxc) :
    (generateCourseSummary db cid slen ai).2.1.data = outputTextOf r ∧
    (generateCourseSummary db cid slen ai).1.summaries.getLast?
      = some ⟨cid, slen, outputTextOf r⟩ := by
  rw [generateCourseSummary_ok db cid slen maxc c ai r hm hc hne hai]
  exact ⟨rfl, by simp⟩

/-- Witness for `trim_identity_when_fits`: a 5-character response within
the 300-character budget. -/
theorem trim_identity_when_fits_witness :
    (generateCourseSummary db0 1 "short" (fun _ _ => Except.ok ⟨some (("hello").data), []⟩)).2.1.data
      = outputTextOf ⟨some (("hello").data), []⟩ ∧
    (generateCourseSummary db0 1 "short" (fun _ _ => Except.ok ⟨some (("hello").data), []⟩)).1.summaries.getLast?
      = some ⟨1, "short", outputTextOf ⟨some (("hello").data), []⟩⟩ :=
  trim_identity_when_fits db0 1 "short" 300 ⟨1, "Algebra", ("abc").data⟩
    (fun _ _ => Except.ok ⟨some (("hello").data), []⟩) ⟨some (("hello").data), []⟩
    (by decide) (by decide) (by decide) rfl (by decide)

/-- C9: whenever the external call raises (here: an external call that
always raises kind `e`), the whole operation returns a `FAIL` response and
the database — in particular the stored summaries of every course — is
returned completely unchanged: the delete of the old summary row and the
insert of the new one happen only after a successful call. -/
theorem summary_error_leaves_db_unchanged (db : DB) (cid : Nat) (slen : String)
    (e : String) :
    (generateCourseSummary db cid slen (fun _ _ => Except.error e)).1 = db ∧
    (generateCourseSummary db cid slen (fun _ _ => Except.error e)).2.1.status
      = Status.FAIL := by
  unfold generateCourseSummary
  cases hm : summaryMap (pyLowerS slen) with
  | none => exact ⟨rfl, rfl⟩
  | some maxc =>
    cases hc : db.courses.find? (fun c => c.course_id = cid) with
    | none => exact ⟨rfl, rfl⟩
    | some c =>
      dsimp only
      by_cases hne : pyStrip c.course_content = []
      · rw [if_pos hne]; exact ⟨rfl, rfl⟩
      · rw [if_neg hne]; exact ⟨rfl, rfl⟩

/-! ## Flashcards (`apis/flashcards_api.py`) -/

/-- An element of the JSON array parsed from the model output in
`_generate_flashcards_from_text`: either not a dict (skipped by the loop)
or a dict, represented by the strings `str(item.get("front", ""))` and
`str(item.get("back", ""))` the loop computes from it. -/
inductive JItem where
  | other : JItem
  | obj : Str → Str → JItem
deriving DecidableEq, Repr

/-- A flashcard dict `{"front": ..., "back": ...}`. -/
structure Card where
  front : Str
  back : Str
deriving DecidableEq, Repr

/-- The collection loop of `_generate_flashcards_from_text` (lines 60-67):
skip non-dicts, strip `front`/`back`, keep only cards with both nonempty
(clipped to 500/1200 characters), and `break` once `n` cards are built. -/
def collectCards (data : List JItem) (n : Nat) (acc : List Card) : List Card :=
  match data with
  | [] => acc
  | item :: rest =>
    match item with
    | JItem.other => collectCards rest n acc
    | JItem.obj f b =>
      let front := pyStrip f
      let back := pyStrip b
      let acc' := if front ≠ [] ∧ back ≠ []
        then acc ++ [⟨front.take 500, back.take 1200⟩] else acc
      if acc'.length = n then acc' else collectCards rest n acc'

/-- The generic placeholder card `{"front": f"Key idea {len(cards)+1}?",
"back": "Brief explanation."}` appended at position `k`. -/
def placeholderCard (k : Nat) : Card :=
  ⟨("Key idea ").data ++ (toString k).data ++ ("?").data, ("Brief explanation.").data⟩

/-- The padding loop (lines 69-71): append `k` placeholder cards, each
numbered by the current list length plus one. -/
def padCards (cards : List Card) (k : Nat) : List Card :=
  match k with
  | 0 => cards
  | Nat.succ k => padCards (cards ++ [placeholderCard (cards.length + 1)]) k

/-- Lines 60-74 of `_generate_flashcards_from_text`: from the parsed JSON
array to the final card list (collect, then pad with placeholders if short,
else truncate if long). -/
def flashcardsFromData (data : List JItem) (n : Nat) : List Card :=
  let cards := collectCards data n []
  if cards.length < n then padCards cards (n - cards.length)
  else if cards.length > n then cards.take n
  else cards

/-- `_generate_flashcards_from_text(text, n)` after the external call, as a
function of the parse outcome: `none` models the `ValueError` raised when
no JSON array can be recovered from the raw output; `some data` the parsed
array. -/
def generateFlashcardsFromText (parsed : Option (List JItem)) (n : Nat) :
    Except String (List Card) :=
  match parsed with
  | none => Except.error ("Model did not return JSON")
  | some data => Except.ok (flashcardsFromData data n)

/-- Padding adds exactly `k` cards. -/
theorem padCards_length (cards : List Card) (k : Nat) :
    (padCards cards k).length = cards.length + k := by
  induction k generalizing cards with
  | zero => simp [padCards]
  | succ k ih =>
    rw [padCards, ih]
    simp
    omega

/-- The collect/pad/truncate step always yields exactly `n` cards. -/
theorem flashcardsFromData_length (data : List JItem) (n : Nat) :
    (flashcardsFromData data n).length = n := by
  unfold flashcardsFromData
  dsimp only
  split
  · rw [padCards_length]
    omega
  · split
    · simp [List.length_take]
      omega
    · omega

/-- C7: for every parseable model response (any parsed JSON array `data`)
and every requested count `n`, `_generate_flashcards_from_text` returns
exactly `n` cards: too few valid cards are padded with generic
placeholders, too many are cut off at `n`. -/
theorem flashcards_exact_count (data : List JItem) (n : Nat) :
    generateFlashcardsFromText (some data) n = Except.ok (flashcardsFromData data n)
    ∧ (flashcardsFromData data n).length = n :=
  ⟨rfl, flashcardsFromData_length data n⟩

/-- The exception classes caught around `_generate_flashcards_from_text` in
`create_or_replace_flashcards`: `RuntimeError` (reported via `str(e)`) and
any other exception (reported via `type(e).__name__`). -/
inductive GenErr where
  | runtimeError : String → GenErr
  | otherError : String → GenErr
deriving DecidableEq, Repr

/-- `enumerate(cards, start=idx)` turned into `Flashcard` rows (lines
103-105). -/
def rowsFrom (cid : Nat) (idx : Nat) : List Card → List FlashcardRow
  | [] => []
  | c :: rest => ⟨cid, idx, c.front, c.back⟩ :: rowsFrom cid (idx + 1) rest

/-- `create_or_replace_flashcards(course_id)` (`flashcards_api.py` lines
76-109), as a function of the outcome of the generation step (`gen`): an
exception, or the parsed JSON array from which the ten cards are built. -/
def createOrReplaceFlashcards (db : DB) (course_id : Nat)
    (gen : Except GenErr (List JItem)) : DB × Resp :=
  match db.courses.find? (fun c => c.course_id = course_id) with
  | none => (db, pyFail ("Course id=" ++ toString course_id ++ " not found"))
  | some c =>
    let content := pyStrip c.course_content
    if content = [] then
      (db, pyFail ("Course id=" ++ toString course_id ++ " has no content"))
    else
      match gen with
      | Except.error (GenErr.runtimeError msg) => (db, pyFail msg)
      | Except.error (GenErr.otherError t) => (db, pyFail ("AI call failed: " ++ t))
      | Except.ok data =>
        let cards := flashcardsFromData data 10
        let kept := db.flashcards.filter (fun f => ! (f.course_id == course_id))
        let db' : DB := { db with flashcards := kept ++ rowsFrom course_id 1 cards }
        (db', pySuccess (("Inserted 10 flashcards for course_id=").data ++ (toString course_id).data)
          ("Flashcards generated and replaced successfully."))

/-- `get_flashcards(course_id)` (`flashcards_api.py` lines 113-143): the
row list underlying the returned payload — the course's flashcards,
`ORDER BY card_index ASC` (modelled by a stable sort). -/
def getFlashcardsRows (db : DB) (course_id : Nat) : List FlashcardRow :=
  List.insertionSort (fun a b => a.card_index ≤ b.card_index)
    (db.flashcards.filter (fun f => f.course_id == course_id))

/-- Every row built by `rowsFrom` belongs to the given course. -/
theorem rowsFrom_course_id (cid idx : Nat) (cards : List Card) :
    ∀ f ∈ rowsFrom cid idx cards, f.course_id = cid := by
  induction cards generalizing idx with
  | nil => intro f hf; cases hf
  | cons c rest ih =>
    intro f hf
    rcases List.mem_cons.mp hf with hf | hf
    · rw [hf]
    · exact ih (idx + 1) f hf

/-- The card indexes produced by `rowsFrom` are consecutive from `idx`. -/
theorem rowsFrom_map_index (cid idx : Nat) (cards : List Card) :
    (rowsFrom cid idx cards).map (fun f => f.card_index)
      = List.range' idx cards.length := by
  induction cards generalizing idx with
  | nil => rfl
  | cons c rest ih =>
    simp [rowsFrom, List.range', ih (idx + 1)]

/-- Every index produced by `rowsFrom` is at least the starting index. -/
theorem rowsFrom_index_ge (cid idx : Nat) (cards : List Card) :
    ∀ f ∈ rowsFrom cid idx cards, idx ≤ f.card_index := by
  induction cards generalizing idx with
  | nil => intro f hf; cases hf
  | cons c rest ih =>
    intro f hf
    rcases List.mem_cons.mp hf with hf | hf
    · subst hf; exact le_rfl
    · exact Nat.le_of_succ_le (ih (idx + 1) f hf)

/-- The rows built by `rowsFrom` are sorted by ascending `card_index`. -/
theorem rowsFrom_sorted (cid idx : Nat) (cards : List Card) :
    List.Sorted (fun a b => a.card_index ≤ b.card_index) (rowsFrom cid idx cards) := by
  induction cards generalizing idx with
  | nil => exact List.sorted_nil
  | cons c rest ih =>
    rw [rowsFrom, List.sorted_cons]
    exact ⟨fun f hf => Nat.le_of_succ_le (rowsFrom_index_ge cid (idx + 1) rest f hf), ih (idx + 1)⟩

/-- C10: after every successful create-or-replace, the course has exactly
10 flashcards with `card_index` 1..10, every previously stored card of the
course is gone (rows of other courses are untouched), and the fetch
operation returns exactly those rows in ascending `card_index` order. -/
theorem flashcards_replace_invariant (db : DB) (cid : Nat)
    (gen : Except GenErr (List JItem))
    (hs : (createOrReplaceFlashcards db cid gen).2.status = Status.SUCCESS) :
    ((createOrReplaceFlashcards db cid gen).1.flashcards.filter
        (fun f => f.course_id == cid)).map (fun f => f.card_index) = List.range' 1 10
    ∧ ((createOrReplaceFlashcards db cid gen).1.flashcards.filter
        (fun f => f.course_id == cid)).length = 10
    ∧ (createOrReplaceFlashcards db cid gen).1.flashcards.filter
        (fun f => ! (f.course_id == cid))
      = db.flashcards.filter (fun f => ! (f.course_id == cid))
    ∧ getFlashcardsRows (createOrReplaceFlashcards db cid gen).1 cid
      = (createOrReplaceFlashcards db cid gen).1.flashcards.filter
          (fun f => f.course_id == cid) := by
  unfold createOrReplaceFlashcards at hs ⊢
  rcases hfind : db.courses.find? (fun c => c.course_id = cid) with _ | c
  · rw [hfind] at hs
    simp [pyFail] at hs
  · rw [hfind] at hs ⊢
    dsimp only at hs ⊢
    by_cases hne : pyStrip c.course_content = []
    · rw [if_pos hne] at hs
      simp [pyFail] at hs
    · rw [if_neg hne] at hs ⊢
      rcases gen with err | data
      · rcases err with msg | t
        · simp [pyFail] at hs
        · simp [pyFail] at hs
      · dsimp only
        have hlen10 : (flashcardsFromData data 10).length = 10 :=
          flashcardsFromData_length data 10
        have hnew_cid : ∀ f ∈ rowsFrom cid 1 (flashcardsFromData data 10),
            f.course_id = cid := rowsFrom_course_id cid 1 _
        have h1 : (db.flashcards.filter (fun f => ! (f.course_id == cid))).filter
            (fun f => f.course_id == cid) = [] := by
          apply List.filter_eq_nil_iff.mpr
          intro a ha
          have hq := (List.mem_filter.mp ha).2
          simp at hq ⊢
          exact hq
        have h2 : (rowsFrom cid 1 (flashcardsFromData data 10)).filter
            (fun f => f.course_id == cid) = rowsFrom cid 1 (flashcardsFromData data 10) := by
          apply List.filter_eq_self.mpr
          intro a ha
          simp [hnew_cid a ha]
        have h3 : (db.flashcards.filter (fun f => ! (f.course_id == cid))).filter
            (fun f => ! (f.course_id == cid))
            = db.flashcards.filter (fun f => ! (f.course_id == cid)) := by
          apply List.filter_eq_self.mpr
          intro a ha
          exact (List.mem_filter.mp ha).2
        have h4 : (rowsFrom cid 1 (flashcardsFromData data 10)).filter
            (fun f => ! (f.course_id == cid)) = [] := by
          apply List.filter_eq_nil_iff.mpr
          intro a ha
          simp [hnew_cid a ha]
        have hfpos : ((db.flashcards.filter (fun f => ! (f.course_id == cid)))
              ++ rowsFrom cid 1 (flashcardsFromData data 10)).filter
              (fun f => f.course_id == cid)
            = rowsFrom cid 1 (flashcardsFromData data 10) := by
          rw [List.filter_append, h1, h2, List.nil_append]
        refine ⟨?_, ?_, ?_, ?_⟩
        · rw [hfpos, rowsFrom_map_index, hlen10]
        · rw [hfpos]
          have := congrArg List.length (rowsFrom_map_index cid 1 (flashcardsFromData data 10))
          simpa [hlen10] using this
        · rw [List.filter_append, h3, h4, List.append_nil]
        · unfold getFlashcardsRows
          dsimp only
          rw [hfpos]
          exact List.Sorted.insertionSort_eq (rowsFrom_sorted cid 1 _)

/-- A database with one course with content and flashcards both for that
course (to be replaced) and for another course (to be kept). -/
def dbW : DB :=
  ⟨[⟨1, "Algebra", ("abc").data⟩], [],
   [⟨1, 7, ("old front").data, ("old back").data⟩,
    ⟨2, 1, ("other front").data, ("other back").data⟩]⟩

/-- Witness for `flashcards_replace_invariant` on `dbW` with an empty
parsed array (all ten cards are placeholders). -/
theorem flashcards_replace_invariant_witness :
    ((createOrReplaceFlashcards dbW 1 (Except.ok [])).1.flashcards.filter
        (fun f => f.course_id == 1)).map (fun f => f.card_index) = List.range' 1 10
    ∧ ((createOrReplaceFlashcards dbW 1 (Except.ok [])).1.flashcards.filter
        (fun f => f.course_id == 1)).length = 10
    ∧ (createOrReplaceFlashcards dbW 1 (Except.ok [])).1.flashcards.filter
        (fun f => ! (f.course_id == 1))
      = dbW.flashcards.filter (fun f => ! (f.course_id == 1))
    ∧ getFlashcardsRows (createOrReplaceFlashcards dbW 1 (Except.ok [])).1 1
      = (createOrReplaceFlashcards dbW 1 (Except.ok [])).1.flashcards.filter
          (fun f => f.course_id == 1) :=
  flashcards_replace_invariant dbW 1 (Except.ok []) (by decide)

/-! ## Authentication (`apis/auth_api.py`, `LoginAPI.__call__`) -/

/-- `LoginAPI.__call__(payload)` (`auth_api.py` lines 51-66).  The supplied
email is stripped and lowercased; an empty result fails early.  The lookup
`func.lower(User.user_email) == email_norm` with `scalar_one_or_none()` is
modelled on the user table: no match and a wrong password give the generic
failure, a unique match with the exact password string succeeds, and more
than one match makes `scalar_one_or_none` raise (`Except.error`). -/
def loginCall (users : List UserRow) (email pw : Str) : Except String Resp :=
  let email_norm := pyLower (pyStrip email)
  if email_norm = [] then Except.ok (pyFail ("Email is required"))
  else
    match users.filter (fun u => pyLower u.user_email == email_norm) with
    | [] => Except.ok (pyFail ("Invalid email or password"))
    | [u] =>
      if u.user_password = pw then
        Except.ok (pySuccess (("user_id=").data ++ (toString u.user_id).data) ("Login successful"))
      else
        Except.ok (pyFail ("Invalid email or password"))
    | _ => Except.error ("MultipleResultsFound")

/-- C8: under the well-formedness invariants maintained by signup (stored
emails normalize to nonempty strings; at most one stored user matches any
normalized email), login returns a response — success if and only if some
stored user's lowercased email equals the supplied email stripped and
lowercased and that user's stored password string equals the supplied
password exactly; otherwise the response is a failure. -/
theorem login_plaintext_equality (users : List UserRow) (email pw : Str)
    (hne : ∀ u ∈ users, pyLower u.user_email ≠ [])
    (huniq : (users.filter
        (fun u => pyLower u.user_email == pyLower (pyStrip email))).length ≤ 1) :
    ∃ r : Resp, loginCall users email pw = Except.ok r ∧
      (r.status = Status.SUCCESS ↔
        ∃ u ∈ users, pyLower u.user_email = pyLower (pyStrip email)
          ∧ u.user_password = pw) := by
  unfold loginCall
  by_cases h0 : pyLower (pyStrip email) = []
  · rw [if_pos h0]
    refine ⟨_, rfl, ?_⟩
    constructor
    · intro habs
      simp [pyFail] at habs
    · rintro ⟨u, hu, hmail, -⟩
      exact absurd (hmail.trans h0) (hne u hu)
  · rw [if_neg h0]
    rcases hfil : users.filter (fun u => pyLower u.user_email == pyLower (pyStrip email))
      with _ | ⟨u, _ | ⟨v, rest⟩⟩
    · rw [hfil]
      refine ⟨_, rfl, ?_⟩
      constructor
      · intro habs
        simp [pyFail] at habs
      · rintro ⟨u, hu, hmail, -⟩
        have : u ∈ users.filter (fun x => pyLower x.user_email == pyLower (pyStrip email)) :=
          List.mem_filter.mpr ⟨hu, by simp [hmail]⟩
        rw [hfil] at this
        cases this
    · rw [hfil]
      dsimp only
      by_cases hpw : u.user_password = pw
      · rw [if_pos hpw]
        refine ⟨_, rfl, ?_⟩
        constructor
        · intro _
          have hu : u ∈ users.filter (fun x => pyLower x.user_email == pyLower (pyStrip email)) := by
            rw [hfil]
            exact List.mem_singleton.mpr rfl
          have hm := List.mem_filter.mp hu
          refine ⟨u, hm.1, ?_, hpw⟩
          simpa using hm.2
        · intro _
          rfl
      · rw [if_neg hpw]
        refine ⟨_, rfl, ?_⟩
        constructor
        · intro habs
          simp [pyFail] at habs
        · rintro ⟨w, hw, hmail, hpww⟩
          have : w ∈ users.filter (fun x => pyLower x.user_email == pyLower (pyStrip email)) :=
            List.mem_filter.mpr ⟨hw, by simp [hmail]⟩
          rw [hfil] at this
          have hwu : w = u := List.mem_singleton.mp this
          exact absurd (hwu ▸ hpww) hpw
    · rw [hfil] at huniq
      simp at huniq

/-- A stored user, as signup would create it: normalized email, plaintext
password. -/
def usersW : List UserRow := [⟨1, ("a@b.c").data, ("pw").data⟩]

/-- Witness for `login_plaintext_equality`: a supplied email differing only
in case and surrounding spaces, with the exact password. -/
theorem login_plaintext_equality_witness :
    ∃ r : Resp, loginCall usersW ((" A@B.C ").data) (("pw").data) = Except.ok r ∧
      (r.status = Status.SUCCESS ↔
        ∃ u ∈ usersW, pyLower u.user_email = pyLower (pyStrip ((" A@B.C ").data))
          ∧ u.user_password = ("pw").data) :=
  login_plaintext_equality usersW ((" A@B.C ").data) (("pw").data) (by decide) (by decide)

/-! ## The Chunker of spec section 4.1 (no corresponding code exists) -/

/-- Modelled from the spec: the repository contains no chunking code — the
summarization endpoint passes a single `content[:4000]` slice — so the
Chunker of spec section 4.1 is modelled from the spec text alone.  This
helper finds the index of the rightmost newline of a window. -/
def lastNewlinePos : Str → Option Nat
  | [] => none
  | c :: rest =>
    match lastNewlinePos rest with
    | some i => some (i + 1)
    | none => if c = '\n' then some 0 else none

/-- Modelled from the spec: the number of characters consumed by one
Chunker iteration on a full window — cut just after the rightmost newline
if one lies in the tail `max - 1000` characters of the window (index at
least 1000), otherwise the hard window boundary. -/
def cutLen (window : Str) : Nat :=
  match lastNewlinePos window with
  | some i => if 1000 ≤ i then i + 1 else window.length
  | none => window.length

/-- A rightmost-newline index lies inside the window. -/
theorem lastNewlinePos_lt (w : Str) (i : Nat) (h : lastNewlinePos w = some i) :
    i < w.length := by
  induction w generalizing i with
  | nil => cases h
  | cons c rest ih =>
    rw [lastNewlinePos] at h
    rcases hr : lastNewlinePos rest with _ | j
    · rw [hr] at h
      by_cases hc : c = '\n'
      · rw [if_pos hc] at h
        cases h
        simp
      · rw [if_neg hc] at h
        cases h
    · rw [hr] at h
      cases h
      have := ih j hr
      simp
      omega

/-- One iteration of the Chunker consumes at least one character. -/
theorem cutLen_pos (w : Str) (hw : 0 < w.length) : 0 < cutLen w := by
  unfold cutLen
  rcases h : lastNewlinePos w with _ | i
  · exact hw
  · dsimp only
    by_cases hi : 1000 ≤ i
    · rw [if_pos hi]
      omega
    · rw [if_neg hi]
      exact hw

/-- One iteration of the Chunker consumes at most the window. -/
theorem cutLen_le (w : Str) : cutLen w ≤ w.length := by
  unfold cutLen
  rcases h : lastNewlinePos w with _ | i
  · exact le_rfl
  · dsimp only
    by_cases hi : 1000 ≤ i
    · rw [if_pos hi]
      exact lastNewlinePos_lt w i h
    · rw [if_neg hi]

/-- One iteration of the Chunker consumes at least `min window 1001`
characters: a newline cut happens only at index ≥ 1000. -/
theorem cutLen_ge (w : Str) : min w.length 1001 ≤ cutLen w := by
  unfold cutLen
  rcases h : lastNewlinePos w with _ | i
  · dsimp only
    omega
  · dsimp only
    by_cases hi : 1000 ≤ i
    · rw [if_pos hi]
      omega
    · rw [if_neg hi]
      omega

/-- Modelled from the spec: the Chunker of section 4.1, absent from the
code.  Text of length at most the maximum is a single chunk; otherwise cut
the `maxSize`-character window, preferring the rightmost newline in its
tail `maxSize - 1000` characters, and repeat on the remainder.  Each
iteration emits one chunk, so the iteration count is the chunk count.
(A zero maximum is excluded by the spec — budgets are positive — and is
given a harmless fallback only to make the function total.) -/
def chunker (text : Str) (maxSize : Nat) : List Str :=
  if _hm : maxSize = 0 then [text]
  else if _hl : text.length ≤ maxSize then [text]
  else
    let window := text.take maxSize
    let k := cutLen window
    window.take k :: chunker (text.drop k) maxSize
termination_by text.length
decreasing_by
  simp only [List.length_drop]
  have hk : 0 < cutLen (text.take maxSize) := by
    apply cutLen_pos
    simp only [List.length_take]
    omega
  omega

/-- Modelled from the spec: the minimum number of characters any advancing
Chunker iteration consumes — the hard cut consumes `maxSize`, a newline
cut at least 1001. -/
def minAdvance (maxSize : Nat) : Nat := min maxSize 1001

/-- Fuel-indexed induction for the Chunker bound: chunk count at most the
ceiling of length over the minimum advance, and every chunk nonempty. -/
theorem chunker_bound_aux : ∀ (fuel : Nat) (text : Str) (maxSize : Nat),
    text.length ≤ fuel → 0 < maxSize → text ≠ [] →
    (chunker text maxSize).length
      ≤ (text.length + minAdvance maxSize - 1) / minAdvance maxSize
    ∧ ∀ c ∈ chunker text maxSize, c ≠ [] := by
  intro fuel
  induction fuel with
  | zero =>
    intro text maxSize hf _ ht
    exact absurd (List.length_eq_zero.mp (Nat.le_zero.mp hf)) ht
  | succ fuel ih =>
    intro text maxSize hf hm ht
    have hm' : ¬ maxSize = 0 := by omega
    have htl : 0 < text.length := List.length_pos.mpr ht
    have hadv : 0 < minAdvance maxSize := by
      unfold minAdvance
      omega
    by_cases hle : text.length ≤ maxSize
    · rw [chunker, dif_neg hm', dif_pos hle]
      constructor
      · simp only [List.length_singleton]
        rw [Nat.one_le_div_iff hadv]
        unfold minAdvance at *
        omega
      · intro c hc
        rw [List.mem_singleton.mp hc]
        exact ht
    · rw [chunker, dif_neg hm', dif_neg hle]
      have hwl : (text.take maxSize).length = maxSize := by
        simp only [List.length_take]
        omega
      have hk_pos : 0 < cutLen (text.take maxSize) := by
        apply cutLen_pos
        omega
      have hk_le : cutLen (text.take maxSize) ≤ maxSize := by
        have h1 := cutLen_le (text.take maxSize)
        rw [hwl] at h1
        exact h1
      have hk_ge : minAdvance maxSize ≤ cutLen (text.take maxSize) := by
        have := cutLen_ge (text.take maxSize)
        rw [hwl] at this
        exact this
      have hrest_len : (text.drop (cutLen (text.take maxSize))).length
          = text.length - cutLen (text.take maxSize) := List.length_drop ..
      have hrest_ne : text.drop (cutLen (text.take maxSize)) ≠ [] := by
        apply List.length_pos.mp
        rw [hrest_len]
        omega
      have hrec := ih (text.drop (cutLen (text.take maxSize))) maxSize
        (by rw [hrest_len]; omega) hm hrest_ne
      constructor
      · rw [List.length_cons]
        have hstep : (text.length - cutLen (text.take maxSize) + minAdvance maxSize - 1)
              / minAdvance maxSize + 1
            ≤ (text.length + minAdvance maxSize - 1) / minAdvance maxSize := by
          rw [← Nat.add_div_right _ hadv]
          apply Nat.div_le_div_right
          omega
        calc (chunker (text.drop (cutLen (text.take maxSize))) maxSize).length + 1
            ≤ (text.length - cutLen (text.take maxSize) + minAdvance maxSize - 1)
                / minAdvance maxSize + 1 := by
              have := hrec.1
              rw [hrest_len] at this
              omega
          _ ≤ (text.length + minAdvance maxSize - 1) / minAdvance maxSize := hstep
      · intro c hc
        rcases List.mem_cons.mp hc with hc | hc
        · rw [hc]
          apply List.length_pos.mp
          simp only [List.length_take]
          omega
        · exact hrec.2 c hc

/-- C6: the spec-modelled Chunker terminates on every text (it is a total
function, recursing on a strictly smaller remainder), strictly advances on
every iteration (every emitted chunk is nonempty), and emits at most
`ceil(len(T) / min_advance)` chunks — one per iteration — for any positive
maximum chunk size and nonempty text (the spec makes empty input the
caller's responsibility). -/
theorem chunker_terminates_with_bound (text : Str) (maxSize : Nat)
    (hm : 0 < maxSize) (ht : text ≠ []) :
    (chunker text maxSize).length
      ≤ (text.length + minAdvance maxSize - 1) / minAdvance maxSize
    ∧ ∀ c ∈ chunker text maxSize, c ≠ [] :=
  chunker_bound_aux text.length text maxSize le_rfl hm ht

/-- Witness for `chunker_terminates_with_bound` on a short text. -/
theorem chunker_terminates_with_bound_witness :
    (chunker (("hello world").data) 12000).length
      ≤ ((("hello world").data).length + minAdvance 12000 - 1) / minAdvance 12000
    ∧ ∀ c ∈ chunker (("hello world").data) 12000, c ≠ [] :=
  chunker_terminates_with_bound (("hello world").data) 12000 (by decide) (by decide)
